import Mathlib

/-!
# URL shortener (`src/url_shortner/main.go`)

A shallow embedding of the three HTTP handlers and of the key generator.

* Go strings are Lean `String`s; the operations on them go through the
  character list `String.data`.
* The Mongo collection `urlsCollection` is the list of its documents in
  insertion order.  `InsertOne` appends, `FindOne` returns the first document
  matching the filter.  Both may fail with an I/O error, which is an input of
  the model (`StoreLink`).
* The random source is the function giving the value returned by the i-th call
  of `rand.Intn` inside one run of `generateShortKey`.
* A response records the call made on the `http.ResponseWriter`
  (`http.Error`, `http.Redirect`, or a plain body write) with the arguments the
  handler passes; what `net/http` does with those arguments is not modelled.
-/

namespace UrlShortner

/-! ## Data model -/

/-- The Go struct `URLDocument`. -/
structure URLDocument where
  ShortKey : String
  OriginalURL : String
deriving DecidableEq, Repr

/-- Contents of `urlsCollection`, oldest document first. -/
abbrev Store := List URLDocument

/-- Whether a round trip to the database goes through or fails with an I/O or
connection error. -/
inductive StoreLink where
  | up
  | down
deriving DecidableEq, Repr

/-- The parts of `*http.Request` the handlers read: `r.Method`, `r.URL.Path`
and `r.FormValue("url")` (the empty string when the field is absent). -/
structure Request where
  Method : String
  Path : String
  FormURL : String
deriving DecidableEq, Repr

/-- What a handler did with its `http.ResponseWriter`. -/
inductive Response where
  /-- The call `http.Error(w, msg, code)`. -/
  | Error (msg : String) (code : Nat)
  /-- The call `http.Redirect(w, r, url, code)`; `url` is the argument of the
  call, not the `Location` header that `net/http` derives from it. -/
  | Redirect (url : String) (code : Nat)
  /-- Header `Content-Type: text/html` and a body written with `fmt.Fprint`;
  the status is the implicit 200. -/
  | HTML (body : String)
  /-- The handler panicked before writing anything. -/
  | Panic
deriving DecidableEq, Repr

/-- HTTP status code of a response (none when the handler panicked). -/
def Response.status : Response → Option Nat
  | .Error _ code => some code
  | .Redirect _ code => some code
  | .HTML _ => some 200
  | .Panic => none

/-- Calls a handler makes on its collaborators, in program order. -/
inductive Call where
  | GenerateShortKey
  | InsertOne (doc : URLDocument)
  | FindOne (shortKey : String)
deriving DecidableEq, Repr

/-- Result of serving one request: the response, the collection afterwards
and the calls made. -/
structure Served where
  resp : Response
  store : Store
  calls : List Call
deriving DecidableEq, Repr

/-! ## Constants of `net/http` -/

def MethodPost : String := "POST"
def StatusOK : Nat := 200
def StatusMovedPermanently : Nat := 301
def StatusSeeOther : Nat := 303
def StatusBadRequest : Nat := 400
def StatusNotFound : Nat := 404
def StatusMethodNotAllowed : Nat := 405
def StatusInternalServerError : Nat := 500

/-! ## Key generation -/

/-- The slice `letters` of `generateShortKey`. -/
def letters : List Char :=
  "abcdefghijklmnopqrstuvwxyzABCDEFGHIJKLMNOPQRSTUVWXYZ0123456789".data

/-- One iteration of the loop body `b[i] = letters[rand.Intn(len(letters))]`:
`rand.Intn` panics on a bound that is not positive, indexing panics when the
index is out of range; `v` is the value `rand.Intn` returned. -/
def setLetter (b : List Char) (i : Nat) (v : Nat) : Option (List Char) :=
  if letters.length = 0 then none
  else
    match letters[v]? with
    | none => none
    | some c => some (b.set i c)

/-- The function `generateShortKey`; `rnd i` is the value returned by the call
of `rand.Intn(len(letters))` in iteration `i` (the call of `rand.Seed` only
determines which values these are).  The slice `b` starts as six zero runes
and is written in place.  The result is `none` when the Go code would
panic. -/
def generateShortKey (rnd : Nat → Nat) : Option String :=
  let b : List Char := List.replicate 6 (Char.ofNat 0)
  ((List.range b.length).foldlM (fun b i => setLetter b i (rnd i)) b).map String.mk

/-! ## Store operations -/

/-- The call `urlsCollection.InsertOne(ctx, doc)`: the document is appended to
the collection; `none` is a returned error, which leaves the collection as it
was. -/
def InsertOne (store : Store) (doc : URLDocument) : StoreLink → Option Store
  | .up => some (store ++ [doc])
  | .down => none

/-- Errors of a lookup: the driver's `mongo.ErrNoDocuments`, or a failure to
reach the database. -/
inductive FindError where
  | ErrNoDocuments
  | Unreachable
deriving DecidableEq, Repr

/-- The first document of the collection matching the filter
`bson.M{"short_key": shortKey}`. -/
def firstMatch (store : Store) (shortKey : String) : Option URLDocument :=
  store.find? (fun d => d.ShortKey == shortKey)

/-- The call `urlsCollection.FindOne(ctx, bson.M{"short_key": shortKey}).Decode(&doc)`:
the first matching document, `mongo.ErrNoDocuments` when there is none, and
an I/O error when the database cannot be reached. -/
def FindOne (store : Store) (shortKey : String) : StoreLink → Except FindError URLDocument
  | .down => .error .Unreachable
  | .up =>
    match firstMatch store shortKey with
    | some d => .ok d
    | none => .error .ErrNoDocuments

/-! ## String helpers of the Go standard library -/

/-- Go `strings.HasPrefix`. -/
def HasPrefix (s pre : String) : Bool :=
  pre.data.isPrefixOf s.data

/-- Go `strings.TrimPrefix`: `s` without the leading `pre`, or `s` itself when
it does not start with `pre`. -/
def TrimPrefix (s pre : String) : String :=
  if HasPrefix s pre then String.mk (s.data.drop pre.data.length) else s

/-! ## Handlers -/

/-- The HTML page written by `handleForm`. -/
def formPage : String :=
  "\n\t\t<!DOCTYPE html>\n\t\t<html>\n\t\t<head>\n\t\t\t<title>URL Shortener</title>\n\t\t</head>\n\t\t<body>\n\t\t\t<h2>URL Shortener</h2>\n\t\t\t<form method=\"post\" action=\"/shorten\">\n\t\t\t\t<input type=\"url\" name=\"url\" placeholder=\"Enter a URL\" required>\n\t\t\t\t<input type=\"submit\" value=\"Shorten\">\n\t\t\t</form>\n\t\t</body>\n\t\t</html>\n\t"

/-- The handler `handleForm`. -/
def handleForm (store : Store) (r : Request) : Served :=
  if r.Method == MethodPost then
    { resp := .Redirect "/shorten" StatusSeeOther, store := store, calls := [] }
  else
    { resp := .HTML formPage, store := store, calls := [] }

/-- The value `fmt.Sprintf("http://localhost:3030/short/%s", shortKey)`. -/
def shortenedURL (shortKey : String) : String :=
  "http://localhost:3030/short/" ++ shortKey

/-- The body written by `handleShorten` on success. -/
def shortenBody (shortKey : String) : String :=
  "<p>Shortened URL: <a href=\"" ++ shortenedURL shortKey ++ "\">" ++
    shortenedURL shortKey ++ "</a></p>"

/-- The handler `handleShorten`; `rnd` is the outcome of the random source and
`link` the state of the database connection during the request. -/
def handleShorten (store : Store) (r : Request) (rnd : Nat → Nat) (link : StoreLink) :
    Served :=
  if r.Method != MethodPost then
    { resp := .Error "Invalid request method" StatusMethodNotAllowed,
      store := store, calls := [] }
  else
    let originalURL := r.FormURL
    if originalURL == "" then
      { resp := .Error "URL parameter is missing" StatusBadRequest,
        store := store, calls := [] }
    else
      match generateShortKey rnd with
      | none => { resp := .Panic, store := store, calls := [.GenerateShortKey] }
      | some shortKey =>
        let doc : URLDocument := { ShortKey := shortKey, OriginalURL := originalURL }
        match InsertOne store doc link with
        | none =>
          { resp := .Error "Failed to insert URL into DB" StatusInternalServerError,
            store := store, calls := [.GenerateShortKey, .InsertOne doc] }
        | some store' =>
          { resp := .HTML (shortenBody shortKey),
            store := store', calls := [.GenerateShortKey, .InsertOne doc] }

/-- The handler `handleRedirect`. -/
def handleRedirect (store : Store) (r : Request) (link : StoreLink) : Served :=
  let shortKey := TrimPrefix r.Path "/short/"
  match FindOne store shortKey link with
  | .error _ =>
    { resp := .Error "Shortened key not found" StatusNotFound,
      store := store, calls := [.FindOne shortKey] }
  | .ok doc =>
    { resp := .Redirect doc.OriginalURL StatusMovedPermanently,
      store := store, calls := [.FindOne shortKey] }

/-! ## Request steps -/

/-- The three handlers registered in `main`. -/
inductive Route where
  | Form
  | Shorten
  | Redirect
deriving DecidableEq, Repr

/-- One request together with what the environment does while it is served. -/
structure Event where
  route : Route
  req : Request
  rnd : Nat → Nat
  link : StoreLink

/-- Serving one request with the handler of its route. -/
def serve (store : Store) (e : Event) : Served :=
  match e.route with
  | .Form => handleForm store e.req
  | .Shorten => handleShorten store e.req e.rnd e.link
  | .Redirect => handleRedirect store e.req e.link

/-- The collection after serving a sequence of requests one after the other. -/
def run (store : Store) : List Event → Store
  | [] => store
  | e :: es => run (serve store e).store es

/-! ## Vocabulary of the statements -/

/-- A string of exactly six characters, each in `[a-zA-Z0-9]`. -/
def IsKey (s : String) : Prop :=
  s.length = 6 ∧ ∀ c ∈ s.data, c.isAlphanum = true

/-- Six indices into the alphabet, as the outcome of the six calls of
`rand.Intn`. -/
def indexTuple (d : Fin 6 → Fin 62) : Nat → Nat :=
  fun i => if h : i < 6 then (d ⟨i, h⟩).val else 0

/-- A POST of the form field `url` to `/shorten`. -/
def postShorten (url : String) : Request :=
  { Method := MethodPost, Path := "/shorten", FormURL := url }

/-- A GET of the given path. -/
def getPath (path : String) : Request :=
  { Method := "GET", Path := path, FormURL := "" }

/-- Membership in the set of keys can be computed. -/
instance IsKey.decidable (s : String) : Decidable (IsKey s) :=
  decidable_of_iff (s.length = 6 ∧ s.data.all (fun c => c.isAlphanum) = true)
    (by simp [IsKey])



/-! ## Key generation: lemmas -/

theorem letters_length : letters.length = 62 := by decide

theorem letters_nodup : letters.Nodup := by decide

theorem letters_alnum : ∀ c ∈ letters, c.isAlphanum = true := by decide

theorem range_six : List.range 6 = [0, 1, 2, 3, 4, 5] := by decide

/-- Closed form of `generateShortKey`: six successive lookups in `letters`. -/
theorem generateShortKey_eq (rnd : Nat → Nat) :
    generateShortKey rnd =
      (letters[rnd 0]?).bind fun c0 => (letters[rnd 1]?).bind fun c1 =>
      (letters[rnd 2]?).bind fun c2 => (letters[rnd 3]?).bind fun c3 =>
      (letters[rnd 4]?).bind fun c4 => (letters[rnd 5]?).bind fun c5 =>
        some (String.mk [c0, c1, c2, c3, c4, c5]) := by
  have hl : letters.length ≠ 0 := by decide
  simp only [generateShortKey, List.length_replicate, range_six, List.foldlM_cons,
    List.foldlM_nil, setLetter, if_neg hl]
  cases h0 : letters[rnd 0]? <;> simp [Option.bind]
  cases h1 : letters[rnd 1]? <;> simp [Option.bind]
  cases h2 : letters[rnd 2]? <;> simp [Option.bind]
  cases h3 : letters[rnd 3]? <;> simp [Option.bind]
  cases h4 : letters[rnd 4]? <;> simp [Option.bind]
  cases h5 : letters[rnd 5]? <;> simp [Option.bind]

/-- A lookup within bounds yields an alphanumeric character. -/
theorem letters_lookup (v : Nat) (h : v < 62) :
    ∃ c, letters[v]? = some c ∧ c.isAlphanum = true := by
  have hv : v < letters.length := by rw [letters_length]; exact h
  exact ⟨letters[v], List.getElem?_eq_getElem hv, letters_alnum _ (List.getElem_mem hv)⟩

/-- Under the contract of `rand.Intn` the generator returns a key. -/
theorem generateShortKey_isKey (rnd : Nat → Nat) (h : ∀ i, i < 6 → rnd i < 62) :
    ∃ key, generateShortKey rnd = some key ∧ IsKey key := by
  obtain ⟨c0, e0, a0⟩ := letters_lookup (rnd 0) (h 0 (by decide))
  obtain ⟨c1, e1, a1⟩ := letters_lookup (rnd 1) (h 1 (by decide))
  obtain ⟨c2, e2, a2⟩ := letters_lookup (rnd 2) (h 2 (by decide))
  obtain ⟨c3, e3, a3⟩ := letters_lookup (rnd 3) (h 3 (by decide))
  obtain ⟨c4, e4, a4⟩ := letters_lookup (rnd 4) (h 4 (by decide))
  obtain ⟨c5, e5, a5⟩ := letters_lookup (rnd 5) (h 5 (by decide))
  refine ⟨String.mk [c0, c1, c2, c3, c4, c5], ?_, ?_, ?_⟩
  · rw [generateShortKey_eq, e0, e1, e2, e3, e4, e5]; rfl
  · rfl
  · intro c hc
    simp only [List.mem_cons, List.mem_singleton, List.not_mem_nil, or_false] at hc
    rcases hc with rfl | rfl | rfl | rfl | rfl | rfl <;> assumption

/-! ## Lookup: lemmas -/

/-- Stripping the prefix `/short/` from `/short/` followed by `k` gives `k`. -/
theorem TrimPrefix_short (k : String) : TrimPrefix ("/short/" ++ k) "/short/" = k := by
  have hd : ("/short/" ++ k).data = "/short/".data ++ k.data := String.data_append _ _
  have hp : HasPrefix ("/short/" ++ k) "/short/" = true := by
    simp [HasPrefix, hd]
  simp [TrimPrefix, hp, hd]

theorem firstMatch_eq_none {store : Store} {k : String} :
    firstMatch store k = none ↔ ∀ d ∈ store, d.ShortKey ≠ k := by
  simp [firstMatch]

theorem firstMatch_some {store : Store} {k : String} {d : URLDocument}
    (h : firstMatch store k = some d) : d ∈ store ∧ d.ShortKey = k := by
  refine ⟨List.mem_of_find?_eq_some h, ?_⟩
  simpa using List.find?_some h

theorem firstMatch_append (store rest : Store) (k : String) :
    firstMatch (store ++ rest) k = (firstMatch store k).or (firstMatch rest k) := by
  simp [firstMatch, List.find?_append]

theorem firstMatch_cons (d : URLDocument) (rest : Store) (k : String) :
    firstMatch (d :: rest) k = if d.ShortKey = k then some d else firstMatch rest k := by
  by_cases h : d.ShortKey = k <;> simp [firstMatch, List.find?_cons, h]

/-- The handler `handleRedirect` on a path `/short/` followed by `k`, with the
database reachable, spelled out. -/
theorem handleRedirect_up (store : Store) (r : Request) (k : String)
    (hp : r.Path = "/short/" ++ k) :
    handleRedirect store r .up =
      match firstMatch store k with
      | some d =>
        { resp := .Redirect d.OriginalURL StatusMovedPermanently, store := store,
          calls := [.FindOne k] }
      | none =>
        { resp := .Error "Shortened key not found" StatusNotFound, store := store,
          calls := [.FindOne k] } := by
  simp only [handleRedirect, hp, TrimPrefix_short, FindOne]
  cases firstMatch store k <;> rfl

/-- The handler `handleRedirect` when the database cannot be reached. -/
theorem handleRedirect_down (store : Store) (r : Request) :
    handleRedirect store r .down =
      { resp := .Error "Shortened key not found" StatusNotFound, store := store,
        calls := [.FindOne (TrimPrefix r.Path "/short/")] } := by
  rfl

/-- A POST with a non-empty `url` for which the generator returns `key`,
spelled out. -/
theorem handleShorten_post (store : Store) (r : Request) (rnd : Nat → Nat) (key : String)
    (link : StoreLink) (hm : r.Method = MethodPost) (hurl : r.FormURL ≠ "")
    (hkey : generateShortKey rnd = some key) :
    handleShorten store r rnd link =
      match link with
      | .up =>
        { resp := .HTML (shortenBody key),
          store := store ++ [{ ShortKey := key, OriginalURL := r.FormURL }],
          calls := [.GenerateShortKey,
            .InsertOne { ShortKey := key, OriginalURL := r.FormURL }] }
      | .down =>
        { resp := .Error "Failed to insert URL into DB" StatusInternalServerError,
          store := store,
          calls := [.GenerateShortKey,
            .InsertOne { ShortKey := key, OriginalURL := r.FormURL }] } := by
  cases link <;> simp [handleShorten, hm, hurl, hkey, InsertOne]

/-- The handler `handleShorten` either leaves the collection as it was or
appends one document. -/
theorem handleShorten_store (store : Store) (r : Request) (rnd : Nat → Nat)
    (link : StoreLink) :
    (handleShorten store r rnd link).store = store ∨
      ∃ doc, (handleShorten store r rnd link).store = store ++ [doc] := by
  unfold handleShorten
  split
  · exact Or.inl rfl
  · simp only
    split
    · exact Or.inl rfl
    · cases generateShortKey rnd with
      | none => exact Or.inl rfl
      | some key =>
        cases link with
        | up => exact Or.inr ⟨_, rfl⟩
        | down => exact Or.inl rfl

theorem handleForm_store (store : Store) (r : Request) :
    (handleForm store r).store = store := by
  unfold handleForm; split <;> rfl

theorem handleRedirect_store (store : Store) (r : Request) (link : StoreLink) :
    (handleRedirect store r link).store = store := by
  simp only [handleRedirect]; split <;> rfl

theorem serve_store (store : Store) (e : Event) :
    (serve store e).store = store ∨ ∃ doc, (serve store e).store = store ++ [doc] := by
  unfold serve
  split
  · exact Or.inl (handleForm_store _ _)
  · exact handleShorten_store _ _ _ _
  · exact Or.inl (handleRedirect_store _ _ _)

theorem serve_extends (store : Store) (e : Event) : store <+: (serve store e).store := by
  rcases serve_store store e with h | ⟨doc, h⟩
  · rw [h]
  · rw [h]; exact List.prefix_append _ _

theorem run_length (es : List Event) :
    ∀ store : Store, (run store es).length ≤ store.length + es.length := by
  induction es with
  | nil => intro store; simp [run]
  | cons e es ih =>
    intro store
    have h := ih (serve store e).store
    simp only [run, List.length_cons]
    rcases serve_store store e with hs | ⟨doc, hs⟩
    · rw [hs] at h ⊢; omega
    · rw [hs] at h ⊢
      rw [List.length_append, List.length_singleton] at h
      omega

theorem run_extends (es : List Event) : ∀ store : Store, store <+: run store es := by
  induction es with
  | nil => intro store; exact List.prefix_refl _
  | cons e es ih =>
    intro store
    exact (serve_extends store e).trans (ih _)



/-! ## The alphabet -/

set_option maxRecDepth 100000 in
theorem alnum_code :
    ∀ n : Fin 123, (Char.ofNat n.val).isAlphanum = true → Char.ofNat n.val ∈ letters := by
  decide

theorem alnum_bound (c : Char) (h : c.isAlphanum = true) : c.toNat < 123 := by
  simp only [Char.isAlphanum, Char.isAlpha, Char.isUpper, Char.isLower, Char.isDigit,
    Bool.or_eq_true, Bool.and_eq_true, decide_eq_true_eq] at h
  simp only [ge_iff_le, UInt32.le_def, Fin.le_def] at h
  have hc : c.toNat = c.val.val.val := rfl
  rw [hc]
  rcases h with (⟨_, h⟩ | ⟨_, h⟩) | ⟨_, h⟩ <;>
    exact lt_of_le_of_lt h (by decide)

/-- Every character of `[a-zA-Z0-9]` occurs in `letters`. -/
theorem alnum_mem_letters (c : Char) (h : c.isAlphanum = true) : c ∈ letters := by
  have hb := alnum_bound c h
  have hn := alnum_code ⟨c.toNat, hb⟩
  simp only [Char.ofNat_toNat] at hn
  exact hn h

theorem indexTuple_lt (d : Fin 6 → Fin 62) (i : Nat) : indexTuple d i < 62 := by
  unfold indexTuple
  split
  · exact (d _).isLt
  · decide

/-- Two positions of `letters` holding the same character are the same. -/
theorem letters_index_inj {a b : Nat} {c : Char} (ha : letters[a]? = some c)
    (hb : letters[b]? = some c) : a = b :=
  List.getElem?_inj (List.getElem?_eq_some.mp ha).1 letters_nodup (ha.trans hb.symm)

theorem generateShortKey_six (rnd : Nat → Nat) (c0 c1 c2 c3 c4 c5 : Char)
    (h0 : letters[rnd 0]? = some c0) (h1 : letters[rnd 1]? = some c1)
    (h2 : letters[rnd 2]? = some c2) (h3 : letters[rnd 3]? = some c3)
    (h4 : letters[rnd 4]? = some c4) (h5 : letters[rnd 5]? = some c5) :
    generateShortKey rnd = some (String.mk [c0, c1, c2, c3, c4, c5]) := by
  rw [generateShortKey_eq, h0, h1, h2, h3, h4, h5]; rfl

/-- The generator is injective on index tuples. -/
theorem generateShortKey_inj (d e : Fin 6 → Fin 62)
    (h : generateShortKey (indexTuple d) = generateShortKey (indexTuple e)) : d = e := by
  have look : ∀ (t : Fin 6 → Fin 62) (i : Nat), ∃ c, letters[indexTuple t i]? = some c :=
    fun t i => (letters_lookup _ (indexTuple_lt t i)).imp fun _ hc => hc.1
  obtain ⟨a0, ha0⟩ := look d 0
  obtain ⟨a1, ha1⟩ := look d 1
  obtain ⟨a2, ha2⟩ := look d 2
  obtain ⟨a3, ha3⟩ := look d 3
  obtain ⟨a4, ha4⟩ := look d 4
  obtain ⟨a5, ha5⟩ := look d 5
  obtain ⟨b0, hb0⟩ := look e 0
  obtain ⟨b1, hb1⟩ := look e 1
  obtain ⟨b2, hb2⟩ := look e 2
  obtain ⟨b3, hb3⟩ := look e 3
  obtain ⟨b4, hb4⟩ := look e 4
  obtain ⟨b5, hb5⟩ := look e 5
  rw [generateShortKey_six _ _ _ _ _ _ _ ha0 ha1 ha2 ha3 ha4 ha5,
    generateShortKey_six _ _ _ _ _ _ _ hb0 hb1 hb2 hb3 hb4 hb5] at h
  have hl := congrArg String.data (Option.some.inj h)
  simp only [List.cons.injEq, and_true] at hl
  obtain ⟨r0, r1, r2, r3, r4, r5⟩ := hl
  subst r0 r1 r2 r3 r4 r5
  have k0 := letters_index_inj ha0 hb0
  have k1 := letters_index_inj ha1 hb1
  have k2 := letters_index_inj ha2 hb2
  have k3 := letters_index_inj ha3 hb3
  have k4 := letters_index_inj ha4 hb4
  have k5 := letters_index_inj ha5 hb5
  simp only [indexTuple, Nat.ofNat_pos, Nat.one_lt_ofNat, Nat.reduceLT, dite_true,
    Nat.lt_add_one] at k0 k1 k2 k3 k4 k5
  funext i
  apply Fin.ext
  fin_cases i
  · exact k0
  · exact k1
  · exact k2
  · exact k3
  · exact k4
  · exact k5

/-- Every six-character alphanumeric string is generated by some index
tuple. -/
theorem generateShortKey_surj (s : String) (hs : IsKey s) :
    ∃ d : Fin 6 → Fin 62, generateShortKey (indexTuple d) = some s := by
  obtain ⟨l⟩ := s
  obtain ⟨hlen, hal⟩ := hs
  have find : ∀ c ∈ l, ∃ v : Fin 62, letters[v.val]? = some c := by
    intro c hc
    obtain ⟨n, hn⟩ := List.mem_iff_getElem?.mp (alnum_mem_letters c (hal c hc))
    have hlt : n < 62 := by
      have := (List.getElem?_eq_some.mp hn).1
      rwa [letters_length] at this
    exact ⟨⟨n, hlt⟩, hn⟩
  match l, hlen, find with
  | [c0, c1, c2, c3, c4, c5], _, find =>
    obtain ⟨v0, h0⟩ := find c0 (by simp)
    obtain ⟨v1, h1⟩ := find c1 (by simp)
    obtain ⟨v2, h2⟩ := find c2 (by simp)
    obtain ⟨v3, h3⟩ := find c3 (by simp)
    obtain ⟨v4, h4⟩ := find c4 (by simp)
    obtain ⟨v5, h5⟩ := find c5 (by simp)
    refine ⟨![v0, v1, v2, v3, v4, v5], ?_⟩
    apply generateShortKey_six <;> simpa [indexTuple]


/-! ## Claims -/

/-- C1: for every outcome of the six calls of `rand.Intn(62)` (six values below
62) `generateShortKey` returns a string, never panics on the index into
`letters`, and the string has exactly 6 characters, each in `[a-zA-Z0-9]`;
a POST to `handleShorten` with a non-empty `url` stores exactly that key and
embeds it in the response. -/
theorem generateShortKey_shape (rnd : Nat → Nat) (h : ∀ i, i < 6 → rnd i < 62) :
    ∃ key, generateShortKey rnd = some key ∧ key.length = 6 ∧
      (∀ c ∈ key.data, c.isAlphanum = true) ∧
      ∀ (store : Store) (path url : String), url ≠ "" →
        handleShorten store { Method := MethodPost, Path := path, FormURL := url } rnd .up =
          { resp := .HTML (shortenBody key),
            store := store ++ [{ ShortKey := key, OriginalURL := url }],
            calls := [.GenerateShortKey,
              .InsertOne { ShortKey := key, OriginalURL := url }] } := by
  obtain ⟨key, hkey, hlen, hal⟩ := generateShortKey_isKey rnd h
  refine ⟨key, hkey, hlen, hal, ?_⟩
  intro store path url hurl
  exact handleShorten_post store _ rnd key .up rfl hurl hkey

theorem generateShortKey_shape_witness :
    (∀ i, i < 6 → (fun i => 10 * i) i < 62) ∧
      ∃ key, generateShortKey (fun i => 10 * i) = some key ∧ key.length = 6 ∧
        (∀ c ∈ key.data, c.isAlphanum = true) ∧
        ∀ (store : Store) (path url : String), url ≠ "" →
          handleShorten store { Method := MethodPost, Path := path, FormURL := url }
              (fun i => 10 * i) .up =
            { resp := .HTML (shortenBody key),
              store := store ++ [{ ShortKey := key, OriginalURL := url }],
              calls := [.GenerateShortKey,
                .InsertOne { ShortKey := key, OriginalURL := url }] } :=
  ⟨by decide, generateShortKey_shape (fun i => 10 * i) (by decide)⟩

/-- C2, as stated, fails: the collection already holds a record with the key
`akuEOY` (left there by an earlier POST with the same outcome of the random
source); a POST of `https://example.com` that draws the same key succeeds, and
the immediate lookup of that key redirects to the older URL. When the
database cannot be reached during that lookup there is no redirect at all. -/
theorem roundTrip_collision :
    (handleShorten [] (postShorten "https://old.example") (fun i => 10 * i) .up).store =
        [{ ShortKey := "akuEOY", OriginalURL := "https://old.example" }] ∧
      "https://example.com" ≠ "" ∧
      generateShortKey (fun i => 10 * i) = some "akuEOY" ∧
      (handleShorten [{ ShortKey := "akuEOY", OriginalURL := "https://old.example" }]
          (postShorten "https://example.com") (fun i => 10 * i) .up).resp =
        .HTML (shortenBody "akuEOY") ∧
      (handleRedirect
          (handleShorten [{ ShortKey := "akuEOY", OriginalURL := "https://old.example" }]
            (postShorten "https://example.com") (fun i => 10 * i) .up).store
          (getPath ("/short/" ++ "akuEOY")) .up).resp =
        .Redirect "https://old.example" StatusMovedPermanently ∧
      Response.Redirect "https://old.example" StatusMovedPermanently ≠
        Response.Redirect "https://example.com" StatusMovedPermanently ∧
      (handleRedirect
          (handleShorten [{ ShortKey := "akuEOY", OriginalURL := "https://old.example" }]
            (postShorten "https://example.com") (fun i => 10 * i) .up).store
          (getPath ("/short/" ++ "akuEOY")) .down).resp =
        .Error "Shortened key not found" StatusNotFound := by
  decide

/-- C2, amended: after a successful POST of a non-empty `url` that drew `key`,
an immediate `handleRedirect` on `/short/` followed by `key` whose lookup
reaches the database calls `http.Redirect` with status 301 and, as target, the
`OriginalURL` of a stored record with that key, and the target it passes is
exactly `url` if and only if the first
record with that key already in the collection, when there is one, holds
`url`; in particular whenever no record in the collection has that key.
Nothing is said of a lookup that fails to reach the database, nor of the
`Location` header `net/http` derives from the target. -/
theorem roundTrip_first_record (store : Store) (r q : Request) (rnd : Nat → Nat)
    (url key : String) (hm : r.Method = MethodPost) (hf : r.FormURL = url)
    (hurl : url ≠ "") (hkey : generateShortKey rnd = some key)
    (hq : q.Path = "/short/" ++ key) :
    (handleShorten store r rnd .up).resp = .HTML (shortenBody key) ∧
      (∃ d, d ∈ (handleShorten store r rnd .up).store ∧ d.ShortKey = key ∧
        (handleRedirect (handleShorten store r rnd .up).store q .up).resp =
          .Redirect d.OriginalURL StatusMovedPermanently) ∧
      ((handleRedirect (handleShorten store r rnd .up).store q .up).resp =
          .Redirect url StatusMovedPermanently ↔
        ∀ d, firstMatch store key = some d → d.OriginalURL = url) ∧
      ((∀ d ∈ store, d.ShortKey ≠ key) →
        (handleRedirect (handleShorten store r rnd .up).store q .up).resp =
          .Redirect url StatusMovedPermanently) := by
  subst hf
  rw [handleShorten_post store r rnd key .up hm hurl hkey]
  simp only [handleRedirect_up _ q key hq, firstMatch_append, firstMatch_cons]
  cases hfm : firstMatch store key with
  | none =>
    refine ⟨trivial, ⟨{ ShortKey := key, OriginalURL := r.FormURL }, ?_, rfl, ?_⟩, ?_, ?_⟩
    · simp
    · simp
    · simp
    · intro _; simp
  | some d =>
    have hd := firstMatch_some hfm
    refine ⟨trivial, ⟨d, ?_, hd.2, rfl⟩, ?_, ?_⟩
    · exact List.mem_append_left _ hd.1
    · simp
    · intro hfresh
      exact absurd hd.2 (hfresh d hd.1)

theorem roundTrip_first_record_witness :
    (postShorten "https://example.com").Method = MethodPost ∧
      "https://example.com" ≠ "" ∧
      generateShortKey (fun i => 10 * i) = some "akuEOY" ∧
      (∀ d ∈ [({ ShortKey := "aZ3kT9", OriginalURL := "https://old.example" } : URLDocument)],
        d.ShortKey ≠ "akuEOY") ∧
      (handleRedirect
          (handleShorten [{ ShortKey := "aZ3kT9", OriginalURL := "https://old.example" }]
            (postShorten "https://example.com") (fun i => 10 * i) .up).store
          (getPath ("/short/" ++ "akuEOY")) .up).resp =
        .Redirect "https://example.com" StatusMovedPermanently :=
  ⟨rfl, by decide, by decide, by decide,
    (roundTrip_first_record [{ ShortKey := "aZ3kT9", OriginalURL := "https://old.example" }]
      (postShorten "https://example.com") (getPath ("/short/" ++ "akuEOY"))
      (fun i => 10 * i) "https://example.com" "akuEOY" rfl rfl (by decide) (by decide)
      rfl).2.2.2 (by decide)⟩

/-- C3: for every collection, a POST to `handleShorten` whose form field `url`
is empty or missing is answered with `http.Error(w, "URL parameter is missing",
400)`; the collection is unchanged and neither `generateShortKey` nor
`InsertOne` is called. -/
theorem handleShorten_empty_url (store : Store) (path : String) (rnd : Nat → Nat)
    (link : StoreLink) :
    handleShorten store { Method := MethodPost, Path := path, FormURL := "" } rnd link =
        { resp := .Error "URL parameter is missing" StatusBadRequest, store := store,
          calls := [] } ∧
      StatusBadRequest = 400 := by
  constructor
  · simp [handleShorten]
  · rfl

/-- C4: for every collection and every key that no stored record has as its
`ShortKey`, `handleRedirect` on the path `/short/` followed by the key answers
`http.Error(w, "Shortened key not found", 404)`: it is total there, issues no
redirect, looks up exactly the key and leaves the collection unchanged,
whether or not the database can be reached. -/
theorem handleRedirect_unknown_key (store : Store) (r : Request) (k : String)
    (link : StoreLink) (hp : r.Path = "/short/" ++ k)
    (h : ∀ d ∈ store, d.ShortKey ≠ k) :
    handleRedirect store r link =
        { resp := .Error "Shortened key not found" StatusNotFound, store := store,
          calls := [.FindOne k] } ∧
      (handleRedirect store r link).resp.status = some 404 ∧
      ∀ url code, (handleRedirect store r link).resp ≠ .Redirect url code := by
  have hres : handleRedirect store r link =
      { resp := .Error "Shortened key not found" StatusNotFound, store := store,
        calls := [.FindOne k] } := by
    cases link with
    | up => rw [handleRedirect_up store r k hp, firstMatch_eq_none.mpr h]
    | down => rw [handleRedirect_down, hp, TrimPrefix_short]
  rw [hres]
  refine ⟨rfl, rfl, ?_⟩
  intro url code hc
  cases hc

theorem handleRedirect_unknown_key_witness :
    (getPath "/short/doesNotExist").Path = "/short/" ++ "doesNotExist" ∧
      (∀ d ∈ [({ ShortKey := "aZ3kT9", OriginalURL := "https://example.com" } : URLDocument)],
        d.ShortKey ≠ "doesNotExist") ∧
      handleRedirect [{ ShortKey := "aZ3kT9", OriginalURL := "https://example.com" }]
          (getPath "/short/doesNotExist") .up =
        { resp := .Error "Shortened key not found" StatusNotFound,
          store := [{ ShortKey := "aZ3kT9", OriginalURL := "https://example.com" }],
          calls := [.FindOne "doesNotExist"] } :=
  ⟨by decide, by decide,
    (handleRedirect_unknown_key [{ ShortKey := "aZ3kT9", OriginalURL := "https://example.com" }]
      (getPath "/short/doesNotExist") "doesNotExist" .up (by decide) (by decide)).1⟩

/-- C5, as stated, fails: the collection holds a record with the key
`aZ3kT9`, the path is `/short/aZ3kT9`, and the database cannot be reached
during the lookup; `handleRedirect` looks up `aZ3kT9` and answers with
`http.Error` and status 404, not with a redirect. -/
theorem handleRedirect_known_key_unreachable :
    (∃ d ∈ [({ ShortKey := "aZ3kT9", OriginalURL := "https://example.com" } : URLDocument)],
        d.ShortKey = "aZ3kT9") ∧
      (getPath "/short/aZ3kT9").Path = "/short/" ++ "aZ3kT9" ∧
      handleRedirect [{ ShortKey := "aZ3kT9", OriginalURL := "https://example.com" }]
          (getPath "/short/aZ3kT9") .down =
        { resp := .Error "Shortened key not found" StatusNotFound,
          store := [{ ShortKey := "aZ3kT9", OriginalURL := "https://example.com" }],
          calls := [.FindOne "aZ3kT9"] } ∧
      (handleRedirect [{ ShortKey := "aZ3kT9", OriginalURL := "https://example.com" }]
          (getPath "/short/aZ3kT9") .down).resp.status ≠ some 301 ∧
      (handleRedirect [{ ShortKey := "aZ3kT9", OriginalURL := "https://example.com" }]
          (getPath "/short/aZ3kT9") .down).resp ≠
        .Redirect "https://example.com" StatusMovedPermanently := by
  decide

/-- C5, amended: for every collection and every path `/short/` followed by
`k`, if some stored record has `ShortKey` equal to `k`, then `handleRedirect`
looks up exactly `k` (the path with the prefix stripped once, whatever `k`
contains), whether or not the database can be reached, and leaves the
collection unchanged; when the lookup reaches the database it calls
`http.Redirect` with status 301 and, as target, the `OriginalURL` of a stored
record whose `ShortKey` is `k`, namely the first one. Nothing is said of the
answer to a lookup that fails to reach the database, nor of the `Location`
header `net/http` derives from the target. -/
theorem handleRedirect_known_key (store : Store) (r : Request) (k : String)
    (hp : r.Path = "/short/" ++ k) (h : ∃ d ∈ store, d.ShortKey = k) :
    TrimPrefix r.Path "/short/" = k ∧
      (∀ link, (handleRedirect store r link).calls = [.FindOne k] ∧
        (handleRedirect store r link).store = store) ∧
      ∃ d, d ∈ store ∧ d.ShortKey = k ∧ firstMatch store k = some d ∧
        handleRedirect store r .up =
          { resp := .Redirect d.OriginalURL StatusMovedPermanently, store := store,
            calls := [.FindOne k] } ∧
        (handleRedirect store r .up).resp.status = some 301 := by
  refine ⟨by rw [hp, TrimPrefix_short], ?_, ?_⟩
  · intro link
    cases link with
    | up =>
      rw [handleRedirect_up store r k hp]
      cases firstMatch store k <;> exact ⟨rfl, rfl⟩
    | down =>
      rw [handleRedirect_down, hp, TrimPrefix_short]
      exact ⟨rfl, rfl⟩
  · cases hfm : firstMatch store k with
    | none =>
      obtain ⟨d, hd, hk⟩ := h
      exact absurd hk (firstMatch_eq_none.mp hfm d hd)
    | some d =>
      have hd := firstMatch_some hfm
      have hres := handleRedirect_up store r k hp
      rw [hfm] at hres
      refine ⟨d, hd.1, hd.2, rfl, hres, ?_⟩
      rw [hres]; rfl

theorem handleRedirect_known_key_witness :
    (getPath "/short//short/a/b").Path = "/short/" ++ "/short/a/b" ∧
      (∃ d ∈ [({ ShortKey := "a/b", OriginalURL := "https://one.example" } : URLDocument),
            { ShortKey := "/short/a/b", OriginalURL := "https://two.example" }],
        d.ShortKey = "/short/a/b") ∧
      TrimPrefix (getPath "/short//short/a/b").Path "/short/" = "/short/a/b" ∧
      (∀ link,
        (handleRedirect [{ ShortKey := "a/b", OriginalURL := "https://one.example" },
            { ShortKey := "/short/a/b", OriginalURL := "https://two.example" }]
          (getPath "/short//short/a/b") link).calls = [.FindOne "/short/a/b"] ∧
        (handleRedirect [{ ShortKey := "a/b", OriginalURL := "https://one.example" },
            { ShortKey := "/short/a/b", OriginalURL := "https://two.example" }]
          (getPath "/short//short/a/b") link).store =
          [{ ShortKey := "a/b", OriginalURL := "https://one.example" },
            { ShortKey := "/short/a/b", OriginalURL := "https://two.example" }]) ∧
      ∃ d, d ∈ [({ ShortKey := "a/b", OriginalURL := "https://one.example" } : URLDocument),
            { ShortKey := "/short/a/b", OriginalURL := "https://two.example" }] ∧
        d.ShortKey = "/short/a/b" ∧
        firstMatch [{ ShortKey := "a/b", OriginalURL := "https://one.example" },
            { ShortKey := "/short/a/b", OriginalURL := "https://two.example" }]
          "/short/a/b" = some d ∧
        handleRedirect [{ ShortKey := "a/b", OriginalURL := "https://one.example" },
            { ShortKey := "/short/a/b", OriginalURL := "https://two.example" }]
          (getPath "/short//short/a/b") .up =
          { resp := .Redirect d.OriginalURL StatusMovedPermanently,
            store := [{ ShortKey := "a/b", OriginalURL := "https://one.example" },
              { ShortKey := "/short/a/b", OriginalURL := "https://two.example" }],
            calls := [.FindOne "/short/a/b"] } ∧
        (handleRedirect [{ ShortKey := "a/b", OriginalURL := "https://one.example" },
            { ShortKey := "/short/a/b", OriginalURL := "https://two.example" }]
          (getPath "/short//short/a/b") .up).resp.status = some 301 :=
  ⟨by decide, by decide,
    handleRedirect_known_key [{ ShortKey := "a/b", OriginalURL := "https://one.example" },
        { ShortKey := "/short/a/b", OriginalURL := "https://two.example" }]
      (getPath "/short//short/a/b") "/short/a/b" (by decide) (by decide)⟩

/-- C6: for every collection, every POST to `handleShorten` with a non-empty
`url` and every key the generator returns: when the insert succeeds the
collection grows by exactly the record with that key and the URL verbatim, and
the answer is status 200 with a body holding the short URL
`http://localhost:3030/short/` followed by the key; when the insert fails the
answer is `http.Error` with status 500, no short URL, and the collection is
unchanged. -/
theorem handleShorten_insert (store : Store) (r : Request) (rnd : Nat → Nat)
    (url key : String) (hm : r.Method = MethodPost) (hf : r.FormURL = url)
    (hurl : url ≠ "") (hkey : generateShortKey rnd = some key) :
    (handleShorten store r rnd .up =
        { resp := .HTML ("<p>Shortened URL: <a href=\"" ++
            ("http://localhost:3030/short/" ++ key) ++ "\">" ++
            ("http://localhost:3030/short/" ++ key) ++ "</a></p>"),
          store := store ++ [{ ShortKey := key, OriginalURL := url }],
          calls := [.GenerateShortKey,
            .InsertOne { ShortKey := key, OriginalURL := url }] } ∧
      (handleShorten store r rnd .up).resp.status = some 200) ∧
    (handleShorten store r rnd .down =
        { resp := .Error "Failed to insert URL into DB" StatusInternalServerError,
          store := store,
          calls := [.GenerateShortKey,
            .InsertOne { ShortKey := key, OriginalURL := url }] } ∧
      (handleShorten store r rnd .down).resp.status = some 500 ∧
      ∀ body, (handleShorten store r rnd .down).resp ≠ .HTML body) := by
  subst hf
  rw [handleShorten_post store r rnd key .up hm hurl hkey,
    handleShorten_post store r rnd key .down hm hurl hkey]
  refine ⟨⟨rfl, rfl⟩, rfl, rfl, ?_⟩
  intro body hb
  cases hb

theorem handleShorten_insert_witness :
    (postShorten "example.com/no scheme").Method = MethodPost ∧
      "example.com/no scheme" ≠ "" ∧
      generateShortKey (fun i => 10 * i) = some "akuEOY" ∧
      handleShorten [] (postShorten "example.com/no scheme") (fun i => 10 * i) .up =
        { resp := .HTML ("<p>Shortened URL: <a href=\"" ++
            ("http://localhost:3030/short/" ++ "akuEOY") ++ "\">" ++
            ("http://localhost:3030/short/" ++ "akuEOY") ++ "</a></p>"),
          store := [] ++ [{ ShortKey := "akuEOY", OriginalURL := "example.com/no scheme" }],
          calls := [.GenerateShortKey,
            .InsertOne { ShortKey := "akuEOY", OriginalURL := "example.com/no scheme" }] } :=
  ⟨rfl, by decide, by decide,
    (handleShorten_insert [] (postShorten "example.com/no scheme") (fun i => 10 * i)
      "example.com/no scheme" "akuEOY" rfl rfl (by decide) (by decide)).1.1⟩

/-- C7 fails on the code: when the lookup fails because the database cannot be
reached, `handleRedirect` answers `http.Error(w, "Shortened key not found",
404)`, for a key that is stored exactly as for a key that is not; the answer
is the one given for an absent key while the database is reachable. -/
theorem handleRedirect_unreachable_is_404 :
    FindOne [{ ShortKey := "aZ3kT9", OriginalURL := "https://example.com" }] "aZ3kT9" .down =
        .error .Unreachable ∧
      (handleRedirect [{ ShortKey := "aZ3kT9", OriginalURL := "https://example.com" }]
          (getPath "/short/aZ3kT9") .down).resp =
        .Error "Shortened key not found" StatusNotFound ∧
      (handleRedirect [{ ShortKey := "aZ3kT9", OriginalURL := "https://example.com" }]
          (getPath "/short/aZ3kT9") .down).resp =
        (handleRedirect [] (getPath "/short/aZ3kT9") .up).resp ∧
      FindOne [] "aZ3kT9" .up = .error .ErrNoDocuments ∧
      (handleShorten [] (postShorten "https://example.com") (fun i => 10 * i) .down).resp =
        .Error "Failed to insert URL into DB" StatusInternalServerError ∧
      StatusNotFound = 404 ∧ StatusInternalServerError = 500 :=
  ⟨rfl, by decide, by decide, rfl, by decide, rfl, rfl⟩

/-- C8, as stated, fails: the collection holds a record with the key `akuEOY`
and another URL, and both POSTs of `https://example.com` draw that key. Both
succeed, the two appended records are equal in content, and the lookup of the
returned key redirects to the older URL. When the database cannot be reached
during that lookup there is no redirect at all. -/
theorem twice_collision :
    generateShortKey (fun i => 10 * i) = some "akuEOY" ∧
      handleShorten [{ ShortKey := "akuEOY", OriginalURL := "https://old.example" }]
          (postShorten "https://example.com") (fun i => 10 * i) .up =
        { resp := .HTML (shortenBody "akuEOY"),
          store := [{ ShortKey := "akuEOY", OriginalURL := "https://old.example" },
            { ShortKey := "akuEOY", OriginalURL := "https://example.com" }],
          calls := [.GenerateShortKey,
            .InsertOne { ShortKey := "akuEOY", OriginalURL := "https://example.com" }] } ∧
      handleShorten [{ ShortKey := "akuEOY", OriginalURL := "https://old.example" },
            { ShortKey := "akuEOY", OriginalURL := "https://example.com" }]
          (postShorten "https://example.com") (fun i => 10 * i) .up =
        { resp := .HTML (shortenBody "akuEOY"),
          store := [{ ShortKey := "akuEOY", OriginalURL := "https://old.example" },
            { ShortKey := "akuEOY", OriginalURL := "https://example.com" },
            { ShortKey := "akuEOY", OriginalURL := "https://example.com" }],
          calls := [.GenerateShortKey,
            .InsertOne { ShortKey := "akuEOY", OriginalURL := "https://example.com" }] } ∧
      (handleRedirect [{ ShortKey := "akuEOY", OriginalURL := "https://old.example" },
            { ShortKey := "akuEOY", OriginalURL := "https://example.com" },
            { ShortKey := "akuEOY", OriginalURL := "https://example.com" }]
          (getPath ("/short/" ++ "akuEOY")) .up).resp =
        .Redirect "https://old.example" StatusMovedPermanently ∧
      Response.Redirect "https://old.example" StatusMovedPermanently ≠
        Response.Redirect "https://example.com" StatusMovedPermanently ∧
      (handleRedirect [{ ShortKey := "akuEOY", OriginalURL := "https://old.example" },
            { ShortKey := "akuEOY", OriginalURL := "https://example.com" },
            { ShortKey := "akuEOY", OriginalURL := "https://example.com" }]
          (getPath ("/short/" ++ "akuEOY")) .down).resp =
        .Error "Shortened key not found" StatusNotFound := by
  decide

/-- C8, amended: two successful POSTs of the same non-empty `url`, drawing the
keys `k1` and `k2`, append two records to the collection, first the one with
`k1` then the one with `k2` (two entries, equal in content exactly when
`k1 = k2`); `handleRedirect` on the two keys, with lookups that reach the
database, calls `http.Redirect` with status 301 and target exactly `url` for
both if and only if, for each of the two keys, the first record with that key
already in the collection before the two calls, when there is one, holds
`url`; in particular whenever no record in the collection has either key.
Nothing is said of a lookup that fails to reach the database, nor of the
`Location` header `net/http` derives from the target. -/
theorem twice_same_url (store : Store) (r1 r2 q1 q2 : Request) (rnd1 rnd2 : Nat → Nat)
    (url k1 k2 : String)
    (hm1 : r1.Method = MethodPost) (hf1 : r1.FormURL = url)
    (hm2 : r2.Method = MethodPost) (hf2 : r2.FormURL = url) (hurl : url ≠ "")
    (hk1 : generateShortKey rnd1 = some k1) (hk2 : generateShortKey rnd2 = some k2)
    (hq1 : q1.Path = "/short/" ++ k1) (hq2 : q2.Path = "/short/" ++ k2) :
    handleShorten store r1 rnd1 .up =
        { resp := .HTML (shortenBody k1),
          store := store ++ [{ ShortKey := k1, OriginalURL := url }],
          calls := [.GenerateShortKey, .InsertOne { ShortKey := k1, OriginalURL := url }] } ∧
      handleShorten (store ++ [{ ShortKey := k1, OriginalURL := url }]) r2 rnd2 .up =
        { resp := .HTML (shortenBody k2),
          store := store ++
            [{ ShortKey := k1, OriginalURL := url }, { ShortKey := k2, OriginalURL := url }],
          calls := [.GenerateShortKey, .InsertOne { ShortKey := k2, OriginalURL := url }] } ∧
      (({ ShortKey := k1, OriginalURL := url } : URLDocument) =
          { ShortKey := k2, OriginalURL := url } ↔ k1 = k2) ∧
      (((handleRedirect (store ++
              [{ ShortKey := k1, OriginalURL := url }, { ShortKey := k2, OriginalURL := url }])
            q1 .up).resp = .Redirect url StatusMovedPermanently ∧
          (handleRedirect (store ++
              [{ ShortKey := k1, OriginalURL := url }, { ShortKey := k2, OriginalURL := url }])
            q2 .up).resp = .Redirect url StatusMovedPermanently) ↔
        ((∀ d, firstMatch store k1 = some d → d.OriginalURL = url) ∧
          ∀ d, firstMatch store k2 = some d → d.OriginalURL = url)) ∧
      ((∀ d ∈ store, d.ShortKey ≠ k1 ∧ d.ShortKey ≠ k2) →
        (handleRedirect (store ++
              [{ ShortKey := k1, OriginalURL := url }, { ShortKey := k2, OriginalURL := url }])
            q1 .up).resp = .Redirect url StatusMovedPermanently ∧
          (handleRedirect (store ++
              [{ ShortKey := k1, OriginalURL := url }, { ShortKey := k2, OriginalURL := url }])
            q2 .up).resp = .Redirect url StatusMovedPermanently) := by
  have hu1 : r1.FormURL ≠ "" := by rw [hf1]; exact hurl
  have hu2 : r2.FormURL ≠ "" := by rw [hf2]; exact hurl
  have e1 := handleShorten_post store r1 rnd1 k1 .up hm1 hu1 hk1
  have e2 := handleShorten_post (store ++ [{ ShortKey := k1, OriginalURL := url }])
    r2 rnd2 k2 .up hm2 hu2 hk2
  rw [hf1] at e1
  rw [hf2] at e2
  have hiff : ((handleRedirect (store ++
              [{ ShortKey := k1, OriginalURL := url }, { ShortKey := k2, OriginalURL := url }])
            q1 .up).resp = .Redirect url StatusMovedPermanently ∧
          (handleRedirect (store ++
              [{ ShortKey := k1, OriginalURL := url }, { ShortKey := k2, OriginalURL := url }])
            q2 .up).resp = .Redirect url StatusMovedPermanently) ↔
        ((∀ d, firstMatch store k1 = some d → d.OriginalURL = url) ∧
          ∀ d, firstMatch store k2 = some d → d.OriginalURL = url) := by
    simp only [handleRedirect_up _ q1 k1 hq1, handleRedirect_up _ q2 k2 hq2,
      firstMatch_append, firstMatch_cons]
    cases firstMatch store k1 <;> cases firstMatch store k2 <;>
      by_cases hk : k1 = k2 <;> simp [hk, firstMatch]
  refine ⟨e1, ?_, ?_, hiff, ?_⟩
  · simpa using e2
  · constructor
    · intro h; exact congrArg URLDocument.ShortKey h
    · intro h; rw [h]
  · intro hfresh
    refine hiff.mpr ⟨?_, ?_⟩
    · intro d hd
      exact absurd (firstMatch_some hd).2 (hfresh d (firstMatch_some hd).1).1
    · intro d hd
      exact absurd (firstMatch_some hd).2 (hfresh d (firstMatch_some hd).1).2

theorem twice_same_url_witness :
    "https://example.com" ≠ "" ∧
      generateShortKey (fun i => 10 * i) = some "akuEOY" ∧
      generateShortKey (fun i => 12 * i) = some "amyKW8" ∧
      (∀ d ∈ [({ ShortKey := "aZ3kT9", OriginalURL := "https://old.example" } : URLDocument)],
        d.ShortKey ≠ "akuEOY" ∧ d.ShortKey ≠ "amyKW8") ∧
      (handleRedirect ([{ ShortKey := "aZ3kT9", OriginalURL := "https://old.example" }] ++
            [{ ShortKey := "akuEOY", OriginalURL := "https://example.com" },
              { ShortKey := "amyKW8", OriginalURL := "https://example.com" }])
          (getPath ("/short/" ++ "akuEOY")) .up).resp =
        .Redirect "https://example.com" StatusMovedPermanently ∧
      (handleRedirect ([{ ShortKey := "aZ3kT9", OriginalURL := "https://old.example" }] ++
            [{ ShortKey := "akuEOY", OriginalURL := "https://example.com" },
              { ShortKey := "amyKW8", OriginalURL := "https://example.com" }])
          (getPath ("/short/" ++ "amyKW8")) .up).resp =
        .Redirect "https://example.com" StatusMovedPermanently :=
  ⟨by decide, by decide, by decide, by decide,
    (twice_same_url [{ ShortKey := "aZ3kT9", OriginalURL := "https://old.example" }]
      (postShorten "https://example.com") (postShorten "https://example.com")
      (getPath ("/short/" ++ "akuEOY")) (getPath ("/short/" ++ "amyKW8"))
      (fun i => 10 * i) (fun i => 12 * i) "https://example.com" "akuEOY" "amyKW8"
      rfl rfl rfl rfl (by decide) (by decide) (by decide) rfl rfl).2.2.2.2 (by decide)⟩

/-- C9: store monotonicity. `handleForm` and `handleRedirect` leave the
collection exactly as it was; `handleShorten` leaves it as it was or appends
one record; hence after any request, and after any sequence of requests to the
three handlers, the collection before is a prefix of the collection after:
every record present before is still there, at its place and unchanged. -/
theorem store_monotone (store : Store) (r : Request) (rnd : Nat → Nat) (link : StoreLink)
    (e : Event) (es : List Event) :
    (handleForm store r).store = store ∧
      (handleRedirect store r link).store = store ∧
      ((handleShorten store r rnd link).store = store ∨
        ∃ doc, (handleShorten store r rnd link).store = store ++ [doc]) ∧
      store <+: (serve store e).store ∧
      store <+: run store es ∧
      (∀ d ∈ store, d ∈ run store es) ∧
      (run store es).length ≤ store.length + es.length := by
  refine ⟨handleForm_store _ _, handleRedirect_store _ _ _, handleShorten_store _ _ _ _,
    serve_extends _ _, run_extends es store, ?_, run_length es store⟩
  intro d hd
  exact (run_extends es store).subset hd

/-- C10: the alphabet of `generateShortKey` has exactly 62 pairwise distinct
symbols, which are exactly the characters of `[a-zA-Z0-9]`; the map from a
tuple of six indices below 62 to the generated key is a bijection onto the set
of all six-character strings over `[a-zA-Z0-9]`: every such string is produced
by exactly one index tuple, there are exactly `62 ^ 6` keys, and each key has
exactly one of the `62 ^ 6` index tuples, so uniform independent indices give a
uniform key. -/
theorem generateShortKey_bijective :
    letters.length = 62 ∧ letters.Nodup ∧
      (∀ c : Char, c ∈ letters ↔ c.isAlphanum = true) ∧
      (∃ f : (Fin 6 → Fin 62) → { s : String // IsKey s },
        Function.Bijective f ∧
          ∀ d, generateShortKey (indexTuple d) = some (f d).val) ∧
      (∀ s, IsKey s → ∃! d : Fin 6 → Fin 62, generateShortKey (indexTuple d) = some s) ∧
      Nat.card { s : String // IsKey s } = 62 ^ 6 ∧
      Nat.card (Fin 6 → Fin 62) = 62 ^ 6 ∧
      ∀ s, IsKey s →
        Nat.card { d : Fin 6 → Fin 62 // generateShortKey (indexTuple d) = some s } = 1 := by
  have total : ∀ d : Fin 6 → Fin 62,
      ∃ s, generateShortKey (indexTuple d) = some s ∧ IsKey s :=
    fun d => generateShortKey_isKey _ (fun i _ => indexTuple_lt d i)
  choose g hg using total
  have huniq : ∀ s, IsKey s →
      ∃! d : Fin 6 → Fin 62, generateShortKey (indexTuple d) = some s := by
    intro s hs
    obtain ⟨d, hd⟩ := generateShortKey_surj s hs
    exact ⟨d, hd, fun e he => generateShortKey_inj e d (he.trans hd.symm)⟩
  have hbij : Function.Bijective
      (fun d => (⟨g d, (hg d).2⟩ : { s : String // IsKey s })) := by
    constructor
    · intro d e hde
      have hge : g d = g e := congrArg Subtype.val hde
      exact generateShortKey_inj d e (by rw [(hg d).1, (hg e).1, hge])
    · rintro ⟨s, hs⟩
      obtain ⟨d, hd⟩ := generateShortKey_surj s hs
      refine ⟨d, Subtype.ext ?_⟩
      exact Option.some.inj ((hg d).1.symm.trans hd)
  have hcard : Nat.card (Fin 6 → Fin 62) = 62 ^ 6 := by
    rw [Nat.card_eq_fintype_card, Fintype.card_fun, Fintype.card_fin, Fintype.card_fin]
  refine ⟨letters_length, letters_nodup, fun c => ⟨letters_alnum c, alnum_mem_letters c⟩,
    ⟨_, hbij, fun d => (hg d).1⟩, huniq, ?_, hcard, ?_⟩
  · rw [← Nat.card_eq_of_bijective _ hbij, hcard]
  · intro s hs
    obtain ⟨d, hd, hu⟩ := huniq s hs
    rw [Nat.card_eq_one_iff_unique]
    exact ⟨⟨fun a b => Subtype.ext ((hu a.1 a.2).trans (hu b.1 b.2).symm)⟩, ⟨⟨d, hd⟩⟩⟩

end UrlShortner
